import Mathlib

/-!
Shallow embedding of the core logic of the my-attend-flow repository
(attendance tracking PWA).

The embedded source functions are:
* `src/lib/storage.ts` (source file `part_004`, first section):
  the localStorage-backed store with keys for subjects, timetable and
  attendance; `calculateAttendanceStats`, `getSubjectAttendance`,
  `clearAllData`.
* `src/pages/Subjects.tsx` (source file `part_003`):
  `calculateRequiredClasses`.
* `src/pages/Attendance.tsx`: `loadAttendanceData`'s record lookup and
  `markAttendance`.
* `src/lib/excelParser.ts` (source file `part_004`, second section):
  `extractSubjectAndRoom` and `parseExcelTimetable` (modelled from the
  2-D string grid onward; the XLSX byte-level decoding is outside the
  model).
* `src/hooks/useNotifications.ts` / notification service:
  the `notifications_scheduled` localStorage flag written by
  `toggleNotifications`.

JavaScript numbers are modelled by `Nat` / `Int` where the source only
ever holds integers (counts, class numbers) and by `Rat` for the
percentage arithmetic (all divisions the source performs are exact in
binary floating point at realistic data sizes: `attended/total*100` and
`75*total/100` with small integer operands, so `Rat` is a faithful
model of the values compared by the claims).  JavaScript string
operations and the regular expressions of the cell parser are embedded
by an explicit backtracking matcher below.
-/

namespace AttendFlow

/-- Attendance status, the `'present' | 'absent'` union type of
`AttendanceRecord.status`. -/
inductive Status where
  | present
  | absent
deriving DecidableEq, Repr

/-- `AttendanceRecord` from `src/types/attendance.ts` as used by
`markAttendance` in `src/pages/Attendance.tsx`:
`{ id, subjectId, date, status, timetableEntryId }`. -/
structure AttendanceRecord where
  id : String
  subjectId : String
  date : String
  status : Status
  timetableEntryId : String
deriving DecidableEq, Repr

/-- `Subject`: `{ id, name, colorIndex, totalClasses, attendedClasses,
attendancePercentage }`.  The three numeric fields are derived caches. -/
structure Subject where
  id : String
  name : String
  colorIndex : Nat
  totalClasses : Nat
  attendedClasses : Nat
  attendancePercentage : Rat
deriving DecidableEq, Repr

/-- `TimetableEntry`: `{ id, day, time, subject, room? }`. -/
structure TimetableEntry where
  id : String
  day : String
  time : String
  subject : String
  room : Option String
deriving DecidableEq, Repr

/-- The browser localStorage slice used by the app: the three fixed
collection keys of `src/lib/storage.ts` (`attendflow_subjects`,
`attendflow_timetable`, `attendflow_attendance`) plus the
`notifications_scheduled` flag written by `toggleNotifications`.
`none` models an absent key. -/
structure Store where
  subjects : Option (List Subject)
  timetable : Option (List TimetableEntry)
  attendance : Option (List AttendanceRecord)
  notificationsScheduled : Option String
deriving DecidableEq, Repr

/-- `getSubjects`: parse the stored value, `[]` when the key is absent. -/
def getSubjects (s : Store) : List Subject := s.subjects.getD []

/-- `getTimetable`: `[]` when the key is absent. -/
def getTimetable (s : Store) : List TimetableEntry := s.timetable.getD []

/-- `getAttendanceRecords`: `[]` when the key is absent. -/
def getAttendanceRecords (s : Store) : List AttendanceRecord := s.attendance.getD []

/-- `saveAttendanceRecords`: full overwrite of the attendance key. -/
def saveAttendanceRecords (s : Store) (records : List AttendanceRecord) : Store :=
  { s with attendance := some records }

/-- `clearAllData`: removes each key in `STORAGE_KEYS`
(subjects, timetable, attendance) from localStorage.  The
`notifications_scheduled` key is not in `STORAGE_KEYS` and is untouched. -/
def clearAllData (s : Store) : Store :=
  { s with subjects := none, timetable := none, attendance := none }

/-- `localStorage.setItem('notifications_scheduled', v)` as performed by
`toggleNotifications` in `src/hooks/useNotifications.ts`. -/
def setNotificationsScheduled (s : Store) (v : String) : Store :=
  { s with notificationsScheduled := some v }

/-- `AttendanceStats` result shape of the aggregation functions. -/
structure AttendanceStats where
  totalClasses : Nat
  attendedClasses : Nat
  missedClasses : Nat
  attendancePercentage : Rat
deriving DecidableEq, Repr

/-- The stats computation shared verbatim by `calculateAttendanceStats`
and `getSubjectAttendance` in `src/lib/storage.ts`:
total = record count, attended = count of `'present'`, missed = total -
attended, percentage = `totalClasses > 0 ? attended/total*100 : 0`. -/
def attendanceStatsOf (records : List AttendanceRecord) : AttendanceStats :=
  let totalClasses := records.length
  let attendedClasses := (records.filter (fun r => r.status == Status.present)).length
  let missedClasses := totalClasses - attendedClasses
  let attendancePercentage : Rat :=
    if totalClasses > 0 then (attendedClasses : Rat) / (totalClasses : Rat) * 100 else 0
  { totalClasses, attendedClasses, missedClasses, attendancePercentage }

/-- `calculateAttendanceStats()`: aggregates over all stored records. -/
def calculateAttendanceStats (s : Store) : AttendanceStats :=
  attendanceStatsOf (getAttendanceRecords s)

/-- `getSubjectAttendance(subjectId)`: aggregates over the stored records
whose `subjectId` matches. -/
def getSubjectAttendance (s : Store) (subjectId : String) : AttendanceStats :=
  attendanceStatsOf ((getAttendanceRecords s).filter (fun r => r.subjectId == subjectId))

/-- `calculateRequiredClasses` from `src/pages/Subjects.tsx`:
`0` when `totalClasses === 0`, otherwise
`max(0, ceil(75 * totalClasses / 100) - attendedClasses)`.
The result is a JavaScript number that is always a non-negative integer,
modelled as `Int`. -/
def calculateRequiredClasses (subject : Subject) : Int :=
  if subject.totalClasses = 0 then 0
  else
    let minRequired : Int := ⌈(75 * (subject.totalClasses : Rat)) / 100⌉
    max 0 (minRequired - (subject.attendedClasses : Int))

end AttendFlow

namespace AttendFlow

/-! ### Basic facts about the aggregation -/

theorem attendanceStatsOf_attended_le_total (records : List AttendanceRecord) :
    (attendanceStatsOf records).attendedClasses ≤ (attendanceStatsOf records).totalClasses := by
  simpa [attendanceStatsOf] using List.length_filter_le _ records

theorem attendanceStatsOf_percentage_nonneg (records : List AttendanceRecord) :
    0 ≤ (attendanceStatsOf records).attendancePercentage := by
  simp only [attendanceStatsOf]
  split
  · positivity
  · simp

theorem attendanceStatsOf_percentage_le_100 (records : List AttendanceRecord) :
    (attendanceStatsOf records).attendancePercentage ≤ 100 := by
  simp only [attendanceStatsOf]
  split
  case isTrue h =>
    have hle : ((records.filter (fun r => r.status == Status.present)).length : Rat) ≤
        (records.length : Rat) := by
      exact_mod_cast List.length_filter_le _ records
    have hpos : (0 : Rat) < (records.length : Rat) := by exact_mod_cast h
    have h1 : ((records.filter (fun r => r.status == Status.present)).length : Rat) /
        (records.length : Rat) ≤ 1 := by
      rw [div_le_one hpos]; exact hle
    calc ((records.filter (fun r => r.status == Status.present)).length : Rat) /
          (records.length : Rat) * 100
        ≤ 1 * 100 := by
          exact mul_le_mul_of_nonneg_right h1 (by norm_num)
      _ = 100 := by norm_num
  case isFalse h => norm_num

theorem attendanceStatsOf_percentage_eq_zero_iff (records : List AttendanceRecord) :
    (attendanceStatsOf records).attendancePercentage = 0 ↔
      (attendanceStatsOf records).attendedClasses = 0 := by
  simp only [attendanceStatsOf]
  split
  case isTrue h =>
    have hpos : (0 : Rat) < (records.length : Rat) := by exact_mod_cast h
    constructor
    · intro hz
      have := mul_eq_zero.mp hz
      rcases this with h0 | h0
      · have := div_eq_zero_iff.mp h0
        rcases this with h1 | h1
        · exact_mod_cast h1
        · exact absurd h1 (by positivity)
      · norm_num at h0
    · intro hz
      rw [hz]; norm_num
  case isFalse h =>
    have : records.length = 0 := by omega
    have hnil : records = [] := List.length_eq_zero.mp this
    subst hnil
    simp

end AttendFlow

namespace AttendFlow

/-! ### Claim C1: shape of the overall and per-subject statistics -/

/-- **C1.** For every store, `calculateAttendanceStats` returns
`totalClasses` = number of all stored attendance records,
`attendedClasses` = number of records with status `present`,
`missedClasses = totalClasses - attendedClasses`, and
`attendancePercentage = attendedClasses / totalClasses * 100`
(`0` when `totalClasses = 0`); and for every `subjectId`,
`getSubjectAttendance` returns the same four values computed over only
the records whose `subjectId` equals that id. -/
theorem calculateAttendanceStats_spec (s : Store) (subjectId : String) :
    (calculateAttendanceStats s).totalClasses = (getAttendanceRecords s).length ∧
    (calculateAttendanceStats s).attendedClasses =
      (getAttendanceRecords s).countP (fun r => r.status == Status.present) ∧
    (calculateAttendanceStats s).missedClasses =
      (calculateAttendanceStats s).totalClasses - (calculateAttendanceStats s).attendedClasses ∧
    (calculateAttendanceStats s).attendancePercentage =
      (if (calculateAttendanceStats s).totalClasses = 0 then 0
       else ((calculateAttendanceStats s).attendedClasses : Rat) /
         ((calculateAttendanceStats s).totalClasses : Rat) * 100) ∧
    (getSubjectAttendance s subjectId).totalClasses =
      ((getAttendanceRecords s).filter (fun r => r.subjectId == subjectId)).length ∧
    (getSubjectAttendance s subjectId).attendedClasses =
      ((getAttendanceRecords s).filter (fun r => r.subjectId == subjectId)).countP
        (fun r => r.status == Status.present) ∧
    (getSubjectAttendance s subjectId).missedClasses =
      (getSubjectAttendance s subjectId).totalClasses -
        (getSubjectAttendance s subjectId).attendedClasses ∧
    (getSubjectAttendance s subjectId).attendancePercentage =
      (if (getSubjectAttendance s subjectId).totalClasses = 0 then 0
       else ((getSubjectAttendance s subjectId).attendedClasses : Rat) /
         ((getSubjectAttendance s subjectId).totalClasses : Rat) * 100) := by
  refine ⟨rfl, ?_, rfl, ?_, rfl, ?_, rfl, ?_⟩
  · simp [calculateAttendanceStats, attendanceStatsOf, List.countP_eq_length_filter]
  · by_cases h : (getAttendanceRecords s).length = 0
    · simp [calculateAttendanceStats, attendanceStatsOf, h]
    · simp [calculateAttendanceStats, attendanceStatsOf, h, Nat.pos_of_ne_zero h]
  · simp [getSubjectAttendance, attendanceStatsOf, List.countP_eq_length_filter]
  · by_cases h : ((getAttendanceRecords s).filter (fun r => r.subjectId == subjectId)).length = 0
    · simp [getSubjectAttendance, attendanceStatsOf, h]
    · simp [getSubjectAttendance, attendanceStatsOf, h, Nat.pos_of_ne_zero h]

/-! ### Claim C3: range of the percentage (corrected) -/

/-- A store holding exactly one attendance record, with status `absent`. -/
def oneAbsentStore : Store :=
  { subjects := none
    timetable := none
    attendance := some [{ id := "attendance-1", subjectId := "subject-0",
                          date := "2024-01-01", status := Status.absent,
                          timetableEntryId := "entry-1" }]
    notificationsScheduled := none }

/-- **C3, counterexample.** The claim states the percentage equals `0`
if and only if `totalClasses` equals `0`.  On a store holding exactly
one `absent` record, `calculateAttendanceStats` returns
`attendancePercentage = 0` while `totalClasses = 1 ≠ 0`, so the
"only if" direction fails on the code. -/
theorem calculateAttendanceStats_zero_not_iff_total_zero :
    (calculateAttendanceStats oneAbsentStore).attendancePercentage = 0 ∧
    (calculateAttendanceStats oneAbsentStore).totalClasses ≠ 0 := by
  constructor
  · simp [calculateAttendanceStats, oneAbsentStore, attendanceStatsOf, getAttendanceRecords]
  · decide

/-- **C3, amended.** For every store (and every subject id), the
`attendancePercentage` returned by the overall and per-subject stats
operations lies in the closed interval `[0, 100]`, and it equals `0` if
and only if `attendedClasses` equals `0` (in particular it is `0`
whenever `totalClasses = 0`, but also when all records are `absent`). -/
theorem attendancePercentage_in_range (s : Store) (subjectId : String) :
    (0 ≤ (calculateAttendanceStats s).attendancePercentage ∧
      (calculateAttendanceStats s).attendancePercentage ≤ 100 ∧
      ((calculateAttendanceStats s).attendancePercentage = 0 ↔
        (calculateAttendanceStats s).attendedClasses = 0)) ∧
    (0 ≤ (getSubjectAttendance s subjectId).attendancePercentage ∧
      (getSubjectAttendance s subjectId).attendancePercentage ≤ 100 ∧
      ((getSubjectAttendance s subjectId).attendancePercentage = 0 ↔
        (getSubjectAttendance s subjectId).attendedClasses = 0)) :=
  ⟨⟨attendanceStatsOf_percentage_nonneg _, attendanceStatsOf_percentage_le_100 _,
      attendanceStatsOf_percentage_eq_zero_iff _⟩,
    ⟨attendanceStatsOf_percentage_nonneg _, attendanceStatsOf_percentage_le_100 _,
      attendanceStatsOf_percentage_eq_zero_iff _⟩⟩

/-! ### Claim C7: classes required to reach 75% -/

/-- **C7.** For every subject with current counts `(total, attended)`,
`calculateRequiredClasses` returns
`max(0, ceil(75 * total / 100) - attended)` — with value `0` when
`total = 0` (the formula itself already gives `0` there); in particular
for `total = 10`, `attended = 6` it returns `2`. -/
theorem calculateRequiredClasses_spec :
    (∀ subject : Subject,
      calculateRequiredClasses subject =
        max 0 (⌈(75 * (subject.totalClasses : Rat)) / 100⌉ -
          (subject.attendedClasses : Int))) ∧
    calculateRequiredClasses
      { id := "subject-0", name := "Data Science", colorIndex := 0,
        totalClasses := 10, attendedClasses := 6, attendancePercentage := 60 } = 2 ∧
    calculateRequiredClasses
      { id := "subject-1", name := "Cloud Computing", colorIndex := 1,
        totalClasses := 0, attendedClasses := 0, attendancePercentage := 0 } = 0 := by
  refine ⟨?_, ?_, ?_⟩
  · intro subject
    by_cases h : subject.totalClasses = 0
    · have hceil : ⌈(75 * ((subject.totalClasses : Nat) : Rat)) / 100⌉ = 0 := by
        rw [h]; norm_num
      have hle : ⌈(75 * ((subject.totalClasses : Nat) : Rat)) / 100⌉ -
          (subject.attendedClasses : Int) ≤ 0 := by
        rw [hceil]; omega
      rw [max_eq_left hle]
      simp [calculateRequiredClasses, h]
    · simp [calculateRequiredClasses, h]
  · have hceil : ⌈(15 : Rat) / 2⌉ = (8 : Int) := by
      rw [Int.ceil_eq_iff]
      norm_num
    simp only [calculateRequiredClasses]
    norm_num [hceil]
  · simp [calculateRequiredClasses]

end AttendFlow

namespace AttendFlow

/-! ### The mark operation (`src/pages/Attendance.tsx`) -/

/-- The record lookup performed by `loadAttendanceData`: the existing
attendance record whose `date` is the selected date and whose
`timetableEntryId` is the class's timetable entry id.  Its `id` becomes
the class's `attendanceId`. -/
def findRecord (records : List AttendanceRecord) (date entryId : String) :
    Option AttendanceRecord :=
  records.find? (fun r => r.date == date && r.timetableEntryId == entryId)

/-- `markAttendance(classItem, status)`, restricted to its effect on the
attendance collection.  `subjects` is the subjects list loaded by
`loadAttendanceData`; the class's `attendanceId` is the id of the record
found by `findRecord` on the current records (lookup-before-insert).
If the class's subject name matches no subject, the operation fails
("Subject not found" toast) and nothing is written; otherwise either the
record with id `attendanceId` gets its `status` replaced, or a fresh
record (with the caller-supplied fresh id, standing for the
`Date.now()`/random id of the source) is appended. -/
def markAttendanceRecords (subjects : List Subject) (entry : TimetableEntry)
    (date : String) (status : Status) (newId : String)
    (records : List AttendanceRecord) : Except String (List AttendanceRecord) :=
  match subjects.find? (fun s => s.name == entry.subject) with
  | none => Except.error "Subject not found"
  | some subject =>
    match (findRecord records date entry.id).map (fun r => r.id) with
    | some attendanceId =>
      Except.ok (records.map (fun r =>
        if r.id == attendanceId then { r with status := status } else r))
    | none =>
      let newRecord : AttendanceRecord :=
        { id := newId
          subjectId := subject.id
          date := date
          status := status
          timetableEntryId := entry.id }
      Except.ok (records ++ [newRecord])

/-- The attendance collection after a mark click: the updated records on
success, the unchanged records when the operation aborted. -/
def markAttendanceResult (subjects : List Subject) (entry : TimetableEntry)
    (date : String) (status : Status) (newId : String)
    (records : List AttendanceRecord) : List AttendanceRecord :=
  match markAttendanceRecords subjects entry date status newId records with
  | Except.error _ => records
  | Except.ok updated => updated

/-- The full state effect of a `markAttendance` click: records and
subjects are read from the store (as `loadAttendanceData` does), on
success the updated records are saved via `saveAttendanceRecords`, on
failure the store is untouched and the error toast text is returned. -/
def markStore (s : Store) (entry : TimetableEntry) (date : String)
    (status : Status) (newId : String) : Store × Option String :=
  match markAttendanceRecords (getSubjects s) entry date status newId
      (getAttendanceRecords s) with
  | Except.error e => (s, some e)
  | Except.ok records => (saveAttendanceRecords s records, none)

/-- Attendance collections reachable through the app's own mutation
paths: the empty collection (fresh store), a mark click, and the
whole-collection clear. -/
inductive Reachable : List AttendanceRecord → Prop where
  | init : Reachable []
  | mark (subjects : List Subject) (entry : TimetableEntry) (date : String)
      (status : Status) (newId : String) {records : List AttendanceRecord} :
      Reachable records →
      Reachable (markAttendanceResult subjects entry date status newId records)
  | clear {records : List AttendanceRecord} :
      Reachable records → Reachable []

/-- Number of records stored for a given `(date, timetableEntryId)` pair. -/
def pairCount (records : List AttendanceRecord) (date entryId : String) : Nat :=
  records.countP (fun r => r.date == date && r.timetableEntryId == entryId)

end AttendFlow

namespace AttendFlow

/-! ### Claim C5: marking with an unknown subject fails without writing -/

/-- **C5.** For every store and mark request for a schedule entry whose
subject name matches no `Subject` in the subjects collection, the mark
operation fails with the user-facing "Subject not found" error and the
whole store — in particular the attendance collection — is exactly the
same after the call as before it. -/
theorem markStore_subject_not_found (s : Store) (entry : TimetableEntry)
    (date : String) (status : Status) (newId : String)
    (h : (getSubjects s).find? (fun x => x.name == entry.subject) = none) :
    markStore s entry date status newId = (s, some "Subject not found") ∧
    getAttendanceRecords (markStore s entry date status newId).1 =
      getAttendanceRecords s := by
  have : markStore s entry date status newId = (s, some "Subject not found") := by
    simp [markStore, markAttendanceRecords, h]
  exact ⟨this, by rw [this]⟩

/-- A store whose subjects collection holds one subject named
"Data Science", used as a concrete witness scenario. -/
def wStore : Store :=
  { subjects := some [{ id := "subject-0", name := "Data Science", colorIndex := 0,
                        totalClasses := 0, attendedClasses := 0,
                        attendancePercentage := 0 }]
    timetable := some [{ id := "monday-09:00-0", day := "Monday", time := "09:00",
                         subject := "Data Science", room := some "3102B-BL3-FF" }]
    attendance := some []
    notificationsScheduled := none }

/-- A timetable entry whose subject name ("Cloud Computing") matches no
subject of `wStore`. -/
def wUnknownEntry : TimetableEntry :=
  { id := "tuesday-10:00-1", day := "Tuesday", time := "10:00",
    subject := "Cloud Computing", room := none }

/-- Witness for C5 at a concrete input. -/
theorem markStore_subject_not_found_witness :
    markStore wStore wUnknownEntry "2024-01-02" Status.present "attendance-9" =
      (wStore, some "Subject not found") ∧
    getAttendanceRecords
        (markStore wStore wUnknownEntry "2024-01-02" Status.present "attendance-9").1 =
      getAttendanceRecords wStore :=
  markStore_subject_not_found wStore wUnknownEntry "2024-01-02" Status.present
    "attendance-9" (by decide)

/-! ### Claim C6: clear-all (corrected) -/

/-- A store in which the notification-scheduling flag key has been
written (as `toggleNotifications` does) alongside the three collections. -/
def c6Store : Store :=
  setNotificationsScheduled wStore "true"

/-- **C6, counterexample.** The claim states that after the clear-all
operation every key the store uses is removed.  `clearAllData` only
removes the three `STORAGE_KEYS`; on a store where
`toggleNotifications` has written the `notifications_scheduled` key,
that key still holds `"true"` after `clearAllData`. -/
theorem clearAllData_keeps_notification_flag :
    (clearAllData c6Store).notificationsScheduled = some "true" ∧
    (clearAllData c6Store).notificationsScheduled ≠ none := by
  constructor
  · rfl
  · decide

/-- **C6, amended.** The clear-all operation removes the three
collection keys (timetable, subjects, attendance) — but not the
`notifications_scheduled` flag, which is left unchanged — so querying
any of the three collections afterwards returns the empty list and the
overall-stats operation returns `totalClasses = 0`,
`attendedClasses = 0`, `missedClasses = 0` and
`attendancePercentage = 0`. -/
theorem clearAllData_spec (s : Store) :
    (clearAllData s).subjects = none ∧
    (clearAllData s).timetable = none ∧
    (clearAllData s).attendance = none ∧
    getSubjects (clearAllData s) = [] ∧
    getTimetable (clearAllData s) = [] ∧
    getAttendanceRecords (clearAllData s) = [] ∧
    calculateAttendanceStats (clearAllData s) =
      { totalClasses := 0, attendedClasses := 0, missedClasses := 0,
        attendancePercentage := 0 } ∧
    (clearAllData s).notificationsScheduled = s.notificationsScheduled := by
  refine ⟨rfl, rfl, rfl, rfl, rfl, rfl, ?_, rfl⟩
  simp [calculateAttendanceStats, attendanceStatsOf, getAttendanceRecords, clearAllData]

end AttendFlow

namespace AttendFlow

/-! ### Claim C2: at most one record per (scheduleEntryId, date) pair -/

theorem pairCount_map_update (records : List AttendanceRecord) (aid : String)
    (st : Status) (d e : String) :
    pairCount (records.map (fun r =>
      if r.id == aid then { r with status := st } else r)) d e =
      pairCount records d e := by
  unfold pairCount
  rw [List.countP_map]
  apply List.countP_congr
  intro r _
  by_cases h : r.id == aid
  · simp [h, Function.comp]
  · simp [h, Function.comp]

theorem countP_le_one_unique {α : Type} (p : α → Bool) :
    ∀ l : List α, l.countP p ≤ 1 → ∀ a ∈ l, ∀ b ∈ l, p a → p b → a = b := by
  intro l
  induction l with
  | nil => intro _ a ha; simp at ha
  | cons x xs ih =>
    intro h a ha b hb hpa hpb
    rw [List.countP_cons] at h
    rcases List.mem_cons.mp ha with rfl | ha'
    · rcases List.mem_cons.mp hb with rfl | hb'
      · rfl
      · exfalso
        have hx : xs.countP p = 0 := by
          simp only [hpa, if_true] at h; omega
        exact (List.countP_eq_zero.mp hx b hb') hpb
    · rcases List.mem_cons.mp hb with rfl | hb'
      · exfalso
        have hx : xs.countP p = 0 := by
          simp only [hpb, if_true] at h; omega
        exact (List.countP_eq_zero.mp hx a ha') hpa
      · exact ih (by omega) a ha' b hb' hpa hpb

theorem reachable_pairCount_le_one {records : List AttendanceRecord}
    (h : Reachable records) (d e : String) : pairCount records d e ≤ 1 := by
  induction h with
  | init => simp [pairCount]
  | clear _ => simp [pairCount]
  | mark subjects entry date status newId hr ih =>
    rename_i recs
    rcases hfs : subjects.find? (fun s => s.name == entry.subject) with _ | subject
    · simpa [markAttendanceResult, markAttendanceRecords, hfs] using ih
    · rcases hfr : findRecord recs date entry.id with _ | r0
      · have hres : markAttendanceResult subjects entry date status newId recs =
            recs ++ [{ id := newId, subjectId := subject.id, date := date,
                       status := status, timetableEntryId := entry.id }] := by
          simp [markAttendanceResult, markAttendanceRecords, hfs, hfr]
        rw [hres]
        unfold pairCount
        rw [List.countP_append]
        by_cases hp : (date == d && entry.id == e : Bool)
        · have hde : date = d ∧ entry.id = e := by
            simpa [Bool.and_eq_true, beq_iff_eq] using hp
          have hzero : recs.countP
              (fun r => r.date == d && r.timetableEntryId == e) = 0 := by
            apply List.countP_eq_zero.mpr
            intro r hrmem hpr
            have := List.find?_eq_none.mp hfr r hrmem
            apply this
            rcases hde with ⟨hd, he⟩
            subst hd; subst he
            exact hpr
          simp [hzero, List.countP_cons, hp]
        · have : ((fun (r : AttendanceRecord) =>
              r.date == d && r.timetableEntryId == e)
              { id := newId, subjectId := subject.id, date := date,
                status := status, timetableEntryId := entry.id }) = false := by
            simpa using hp
          simp only [List.countP_cons, List.countP_nil, this]
          simpa [pairCount] using ih
      · have hres : markAttendanceResult subjects entry date status newId recs =
            recs.map (fun r =>
              if r.id == r0.id then { r with status := status } else r) := by
          simp [markAttendanceResult, markAttendanceRecords, hfr, hfs]
        rw [hres, pairCount_map_update]
        exact ih

/-- A record with the pair's date and entry id exists. -/
theorem pairCount_pos_of_found {records : List AttendanceRecord} {d e : String}
    {r0 : AttendanceRecord} (hfr : findRecord records d e = some r0) :
    1 ≤ pairCount records d e := by
  unfold pairCount
  have := List.countP_pos_iff.mpr
    ⟨r0, List.mem_of_find?_eq_some hfr, List.find?_some hfr⟩
  omega

/-- **C2.** For every reachable state of the attendance collection and
every `(scheduleEntryId, date)` pair, at most one `AttendanceRecord`
exists for that pair; and calling the mark operation twice for the same
pair with different statuses never produces two records for the pair —
after the second call exactly one record exists for the pair and its
status is the status given by the last call. -/
theorem markAttendance_pair_invariant :
    (∀ records, Reachable records →
      ∀ date entryId, pairCount records date entryId ≤ 1) ∧
    (∀ records subjects entry date status1 status2 newId1 newId2 subject,
      Reachable records →
      subjects.find? (fun s => s.name == entry.subject) = some subject →
      status1 ≠ status2 →
      pairCount (markAttendanceResult subjects entry date status2 newId2
        (markAttendanceResult subjects entry date status1 newId1 records))
        date entry.id = 1 ∧
      ∀ r ∈ markAttendanceResult subjects entry date status2 newId2
          (markAttendanceResult subjects entry date status1 newId1 records),
        r.date = date → r.timetableEntryId = entry.id → r.status = status2) := by
  constructor
  · intro records h date entryId
    exact reachable_pairCount_le_one h date entryId
  · intro records subjects entry date status1 status2 newId1 newId2 subject
      hreach hsub _hne
    have h1reach : Reachable
        (markAttendanceResult subjects entry date status1 newId1 records) :=
      Reachable.mark subjects entry date status1 newId1 hreach
    set records1 := markAttendanceResult subjects entry date status1 newId1 records
      with hrecords1
    have hc1 : pairCount records1 date entry.id = 1 := by
      rcases hfr : findRecord records date entry.id with _ | r0
      · have hres : records1 = records ++
            [{ id := newId1, subjectId := subject.id, date := date,
               status := status1, timetableEntryId := entry.id }] := by
          simp [hrecords1, markAttendanceResult, markAttendanceRecords, hsub, hfr]
        have hzero : pairCount records date entry.id = 0 := by
          apply List.countP_eq_zero.mpr
          intro r hrmem hpr
          exact (List.find?_eq_none.mp hfr r hrmem) hpr
        rw [hres]
        unfold pairCount at hzero ⊢
        rw [List.countP_append, hzero]
        simp
      · have hres : records1 = records.map (fun r =>
            if r.id == r0.id then { r with status := status1 } else r) := by
          simp [hrecords1, markAttendanceResult, markAttendanceRecords, hsub, hfr]
        rw [hres, pairCount_map_update]
        have hge := pairCount_pos_of_found hfr
        have hle := reachable_pairCount_le_one hreach date entry.id
        omega
    have hex : ∃ r ∈ records1,
        (r.date == date && r.timetableEntryId == entry.id : Bool) := by
      apply List.countP_pos_iff.mp
      unfold pairCount at hc1
      omega
    have hissome : (records1.find? (fun r =>
        r.date == date && r.timetableEntryId == entry.id)).isSome := by
      rw [List.find?_isSome]
      simpa using hex
    rcases hr' : records1.find? (fun r =>
        r.date == date && r.timetableEntryId == entry.id) with _ | r'
    · rw [hr'] at hissome; simp at hissome
    · have hfr2 : findRecord records1 date entry.id = some r' := hr'
      have hres2 : markAttendanceResult subjects entry date status2 newId2 records1 =
          records1.map (fun r =>
            if r.id == r'.id then { r with status := status2 } else r) := by
        simp [markAttendanceResult, markAttendanceRecords, hsub, hfr2]
      constructor
      · rw [hres2, pairCount_map_update]; exact hc1
      · intro r hrmem hrd hre
        rw [hres2] at hrmem
        rcases List.mem_map.mp hrmem with ⟨a, hamem, hfa⟩
        have hpa : (a.date == date && a.timetableEntryId == entry.id : Bool) := by
          have had : a.date = r.date := by
            by_cases h : a.id == r'.id
            · rw [← hfa]; simp [h]
            · rw [← hfa]; simp [h]
          have hae : a.timetableEntryId = r.timetableEntryId := by
            by_cases h : a.id == r'.id
            · rw [← hfa]; simp [h]
            · rw [← hfa]; simp [h]
          simp [had, hae, hrd, hre]
        have hpr' := List.find?_some hr'
        have hmem' : r' ∈ records1 := List.mem_of_find?_eq_some hr'
        have haeq : a = r' := by
          apply countP_le_one_unique
            (fun r => r.date == date && r.timetableEntryId == entry.id) records1
          · unfold pairCount at hc1; omega
          · exact hamem
          · exact hmem'
          · exact hpa
          · exact hpr'
        rw [← hfa, haeq]
        simp

/-- Concrete subjects list and entry for the C2 witness scenario. -/
def wSubjects : List Subject :=
  [{ id := "subject-0", name := "Data Science", colorIndex := 0,
     totalClasses := 0, attendedClasses := 0, attendancePercentage := 0 }]

/-- Concrete timetable entry for the C2 witness scenario. -/
def wEntry : TimetableEntry :=
  { id := "monday-09:00-0", day := "Monday", time := "09:00",
    subject := "Data Science", room := some "3102B-BL3-FF" }

/-- Witness for C2: marking the same pair twice (present then absent)
from the empty, reachable collection leaves exactly one record for the
pair. -/
theorem markAttendance_pair_invariant_witness :
    pairCount (markAttendanceResult wSubjects wEntry "2024-01-01" Status.absent
      "attendance-2" (markAttendanceResult wSubjects wEntry "2024-01-01"
        Status.present "attendance-1" [])) "2024-01-01" wEntry.id = 1 :=
  (markAttendance_pair_invariant.2 [] wSubjects wEntry "2024-01-01"
    Status.present Status.absent "attendance-1" "attendance-2"
    { id := "subject-0", name := "Data Science", colorIndex := 0,
      totalClasses := 0, attendedClasses := 0, attendancePercentage := 0 }
    Reachable.init (by decide) (by decide)).1

end AttendFlow

namespace AttendFlow

/-! ### Claim C9: marked pairs never return to unmarked -/

/-- The arguments of one `markAttendance` click. -/
structure MarkOp where
  subjects : List Subject
  entry : TimetableEntry
  date : String
  status : Status
  newId : String

/-- The attendance collection after a sequence of mark clicks. -/
def applyMarks (ops : List MarkOp) (records : List AttendanceRecord) :
    List AttendanceRecord :=
  ops.foldl (fun rs op =>
    markAttendanceResult op.subjects op.entry op.date op.status op.newId rs) records

/-- One mark click keeps every existing record's identity: the result
contains, for every input record, a record with the same `id`,
`subjectId`, `date` and `timetableEntryId` (only `status` may change),
and the collection never shrinks. -/
theorem markAttendanceResult_preserves (subjects : List Subject)
    (entry : TimetableEntry) (date : String) (status : Status) (newId : String)
    (records : List AttendanceRecord) :
    records.length ≤
      (markAttendanceResult subjects entry date status newId records).length ∧
    ∀ r ∈ records, ∃ r' ∈ markAttendanceResult subjects entry date status newId records,
      r'.id = r.id ∧ r'.subjectId = r.subjectId ∧ r'.date = r.date ∧
        r'.timetableEntryId = r.timetableEntryId := by
  rcases hfs : subjects.find? (fun s => s.name == entry.subject) with _ | subject
  · constructor
    · simp [markAttendanceResult, markAttendanceRecords, hfs]
    · intro r hr
      refine ⟨r, ?_, rfl, rfl, rfl, rfl⟩
      simpa [markAttendanceResult, markAttendanceRecords, hfs] using hr
  · rcases hfr : findRecord records date entry.id with _ | r0
    · have hres : markAttendanceResult subjects entry date status newId records =
          records ++ [{ id := newId, subjectId := subject.id, date := date,
                        status := status, timetableEntryId := entry.id }] := by
        simp [markAttendanceResult, markAttendanceRecords, hfs, hfr]
      rw [hres]
      constructor
      · simp
      · intro r hr
        exact ⟨r, List.mem_append_left _ hr, rfl, rfl, rfl, rfl⟩
    · have hres : markAttendanceResult subjects entry date status newId records =
          records.map (fun r =>
            if r.id == r0.id then { r with status := status } else r) := by
        simp [markAttendanceResult, markAttendanceRecords, hfs, hfr]
      rw [hres]
      constructor
      · simp
      · intro r hr
        refine ⟨if r.id == r0.id then { r with status := status } else r,
          List.mem_map_of_mem _ hr, ?_, ?_, ?_, ?_⟩
        · by_cases h : r.id == r0.id
          · simp [h]
          · simp [h]
        · by_cases h : r.id == r0.id
          · simp [h]
          · simp [h]
        · by_cases h : r.id == r0.id
          · simp [h]
          · simp [h]
        · by_cases h : r.id == r0.id
          · simp [h]
          · simp [h]

/-- **C9.** For every `(scheduleEntryId, date)` pair, once a record
exists for the pair, no sequence of mark operations ever removes it:
after any list of mark clicks a record for the pair still exists (the
mark operation never deletes a record; it only appends one or rewrites
the status field of existing ones, as `markAttendanceResult_preserves`
states record by record). -/
theorem applyMarks_never_unmarks (ops : List MarkOp)
    (records : List AttendanceRecord) (date entryId : String)
    (h : ∃ r ∈ records, r.date = date ∧ r.timetableEntryId = entryId) :
    ∃ r ∈ applyMarks ops records, r.date = date ∧ r.timetableEntryId = entryId := by
  induction ops generalizing records with
  | nil => simpa [applyMarks] using h
  | cons op ops ih =>
    have hstep : ∃ r ∈ markAttendanceResult op.subjects op.entry op.date
        op.status op.newId records, r.date = date ∧ r.timetableEntryId = entryId := by
      rcases h with ⟨r, hmem, hd, he⟩
      rcases (markAttendanceResult_preserves op.subjects op.entry op.date
        op.status op.newId records).2 r hmem with ⟨r', hmem', _, _, hd', he'⟩
      exact ⟨r', hmem', by rw [hd', hd], by rw [he', he]⟩
    have : applyMarks (op :: ops) records =
        applyMarks ops (markAttendanceResult op.subjects op.entry op.date
          op.status op.newId records) := by
      simp [applyMarks]
    rw [this]
    exact ih _ hstep

/-- A concrete attendance record for the C9 witness. -/
def wRecord : AttendanceRecord :=
  { id := "attendance-1", subjectId := "subject-0", date := "2024-01-01",
    status := Status.present, timetableEntryId := "monday-09:00-0" }

/-- Witness for C9: a marked pair survives a subsequent mark click (here
one that flips the same pair to absent). -/
theorem applyMarks_never_unmarks_witness :
    ∃ r ∈ applyMarks
        [{ subjects := wSubjects, entry := wEntry, date := "2024-01-01",
           status := Status.absent, newId := "attendance-2" }] [wRecord],
      r.date = "2024-01-01" ∧ r.timetableEntryId = "monday-09:00-0" :=
  applyMarks_never_unmarks _ [wRecord] "2024-01-01" "monday-09:00-0"
    ⟨wRecord, by decide, rfl, rfl⟩

end AttendFlow

namespace AttendFlow

/-! ### Claim C10: a successful mark writes only the attendance collection -/

/-- **C10.** Every successful mark click writes only the attendance
collection: the timetable and subjects collections (and the
notification flag) are unchanged; and when an existing record is
updated (the lookup finds a record `r0` — stated under the reachable-
state invariant that record ids are distinct), the new collection is
the old one with exactly the record carrying `r0`'s id rewritten:
every record other than the matched one is unchanged, every field of
the matched record other than `status` is unchanged, and no record is
added or removed. -/
theorem markStore_frame (s : Store) (entry : TimetableEntry) (date : String)
    (status : Status) (newId : String) (subject : Subject)
    (hsub : (getSubjects s).find? (fun x => x.name == entry.subject) = some subject) :
    (markStore s entry date status newId).2 = none ∧
    (markStore s entry date status newId).1.timetable = s.timetable ∧
    (markStore s entry date status newId).1.subjects = s.subjects ∧
    (markStore s entry date status newId).1.notificationsScheduled =
      s.notificationsScheduled ∧
    ∀ r0 : AttendanceRecord,
      findRecord (getAttendanceRecords s) date entry.id = some r0 →
      ((getAttendanceRecords s).map (fun r => r.id)).Nodup →
      getAttendanceRecords (markStore s entry date status newId).1 =
        (getAttendanceRecords s).map (fun r =>
          if r.id == r0.id then { r with status := status } else r) ∧
      (∀ r ∈ getAttendanceRecords s, r ≠ r0 →
        r ∈ getAttendanceRecords (markStore s entry date status newId).1) ∧
      ({ id := r0.id, subjectId := r0.subjectId, date := r0.date, status := status,
         timetableEntryId := r0.timetableEntryId } : AttendanceRecord) ∈
        getAttendanceRecords (markStore s entry date status newId).1 ∧
      (getAttendanceRecords (markStore s entry date status newId).1).length =
        (getAttendanceRecords s).length := by
  have hbase : ∀ records',
      markAttendanceRecords (getSubjects s) entry date status newId
        (getAttendanceRecords s) = Except.ok records' →
      markStore s entry date status newId = (saveAttendanceRecords s records', none) := by
    intro records' h
    simp [markStore, h]
  rcases hfr : findRecord (getAttendanceRecords s) date entry.id with _ | r0
  · have hok : markAttendanceRecords (getSubjects s) entry date status newId
        (getAttendanceRecords s) = Except.ok ((getAttendanceRecords s) ++
          [{ id := newId, subjectId := subject.id, date := date,
             status := status, timetableEntryId := entry.id }]) := by
      simp [markAttendanceRecords, hsub, hfr]
    rw [hbase _ hok]
    refine ⟨rfl, rfl, rfl, rfl, ?_⟩
    intro r0 hfind _
    exact absurd hfind (by simp)
  · have hok : markAttendanceRecords (getSubjects s) entry date status newId
        (getAttendanceRecords s) = Except.ok ((getAttendanceRecords s).map (fun r =>
          if r.id == r0.id then { r with status := status } else r)) := by
      simp [markAttendanceRecords, hsub, hfr]
    rw [hbase _ hok]
    refine ⟨rfl, rfl, rfl, rfl, ?_⟩
    intro r0' hfind hnodup
    have heq : r0' = r0 := (Option.some.inj hfind).symm
    subst heq
    have hr0mem : r0' ∈ getAttendanceRecords s := List.mem_of_find?_eq_some hfr
    refine ⟨rfl, ?_, ?_, ?_⟩
    · intro r hrmem hne
      have hidne : r.id ≠ r0'.id := by
        intro hid
        exact hne (List.inj_on_of_nodup_map hnodup hrmem hr0mem hid)
      have : (if r.id == r0'.id then { r with status := status } else r) = r := by
        simp [hidne]
      refine List.mem_map.mpr ⟨r, hrmem, this⟩
    · refine List.mem_map.mpr ⟨r0', hr0mem, ?_⟩
      simp
    · simp [saveAttendanceRecords, getAttendanceRecords]

/-- Store for the C10 witness: one subject, one timetable entry and one
already-present attendance record for the pair being re-marked. -/
def c10Store : Store :=
  { subjects := some [{ id := "subject-0", name := "Data Science", colorIndex := 0,
                        totalClasses := 0, attendedClasses := 0,
                        attendancePercentage := 0 }]
    timetable := some [wEntry]
    attendance := some [wRecord]
    notificationsScheduled := some "true" }

/-- Witness for C10 at a concrete input: re-marking the recorded pair as
absent reports no error, touches no other collection, and rewrites
exactly the matched record's status. -/
theorem markStore_frame_witness :
    (markStore c10Store wEntry "2024-01-01" Status.absent "attendance-2").2 = none ∧
    (markStore c10Store wEntry "2024-01-01" Status.absent "attendance-2").1.timetable =
      c10Store.timetable ∧
    getAttendanceRecords
        (markStore c10Store wEntry "2024-01-01" Status.absent "attendance-2").1 =
      (getAttendanceRecords c10Store).map (fun r =>
        if r.id == wRecord.id then { r with status := Status.absent } else r) := by
  have h := markStore_frame c10Store wEntry "2024-01-01" Status.absent "attendance-2"
    { id := "subject-0", name := "Data Science", colorIndex := 0,
      totalClasses := 0, attendedClasses := 0, attendancePercentage := 0 }
    (by decide)
  exact ⟨h.1, h.2.1, (h.2.2.2.2 wRecord (by decide) (by decide)).1⟩

end AttendFlow

namespace AttendFlow

/-! ### A backtracking matcher for the cell parser's regular expressions

`extractSubjectAndRoom` and `parseExcelTimetable` work by a chain of
JavaScript regular-expression searches and replacements.  They are
embedded via an explicit regular-expression syntax and a fuel-bounded
backtracking matcher with JavaScript semantics: leftmost match, ordered
alternation, greedy quantifiers, ASCII word boundaries. -/

/-- Regular-expression syntax: character classes, sequencing, ordered
alternation, greedy star and option, word boundary `\b` and end anchor
`$`. -/
inductive RE where
  | eps : RE
  | cls (p : Char → Bool) : RE
  | seq (a b : RE) : RE
  | alt (a b : RE) : RE
  | star (a : RE) : RE
  | opt (a : RE) : RE
  | wb : RE
  | eol : RE

def RE.cat : List RE → RE
  | [] => RE.eps
  | [r] => r
  | r :: rs => RE.seq r (RE.cat rs)

def RE.chr (c : Char) : RE := RE.cls (fun d => d == c)

def RE.str (s : String) : RE := RE.cat (s.toList.map RE.chr)

/-- Case-insensitive literal (for the `gi` surname pattern). -/
def RE.strCI (s : String) : RE :=
  RE.cat (s.toList.map (fun c => RE.cls (fun d => d.toLower == c.toLower)))

def RE.plus (a : RE) : RE := RE.seq a (RE.star a)

def RE.repeatN : Nat → RE → RE
  | 0, _ => RE.eps
  | n + 1, a => RE.seq a (RE.repeatN n a)

def isUpperAZ (c : Char) : Bool := decide ('A' ≤ c ∧ c ≤ 'Z')

def isLowerAZ (c : Char) : Bool := decide ('a' ≤ c ∧ c ≤ 'z')

def isDigit09 (c : Char) : Bool := decide ('0' ≤ c ∧ c ≤ '9')

/-- JavaScript `\s` (restricted to the ASCII whitespace the inputs use). -/
def isSpaceJS (c : Char) : Bool :=
  c == ' ' || c == '\t' || c == '\n' || c == '\r' || c == '\x0b' || c == '\x0c'

/-- JavaScript `\w`, as used by the `\b` word-boundary assertion. -/
def isWordChar (c : Char) : Bool :=
  isUpperAZ c || isLowerAZ c || isDigit09 c || c == '_'

/-- Greedy star iteration: `runA` gives the end positions of one body
match from a position; iterations that do not advance are dropped (as
JavaScript does for empty-width star iterations), `fuel` bounds the
iteration count (the patterns used never need more than one iteration
per consumed character). -/
def reRunStar (runA : Nat → List Nat) : Nat → Nat → List Nat
  | 0, pos => [pos]
  | fuel + 1, pos =>
    ((runA pos).filter (fun e => pos < e)).flatMap
      (fun e => reRunStar runA fuel e) ++ [pos]

/-- All end positions of a match of `r` starting at `pos` in `s`, in
backtracking preference order (greedy first, alternatives in source
order). -/
def reRun (s : List Char) (fuel : Nat) : RE → Nat → List Nat
  | RE.eps, pos => [pos]
  | RE.cls p, pos =>
    match s.get? pos with
    | some c => if p c then [pos + 1] else []
    | none => []
  | RE.seq a b, pos => (reRun s fuel a pos).flatMap (reRun s fuel b)
  | RE.alt a b, pos => reRun s fuel a pos ++ reRun s fuel b pos
  | RE.opt a, pos => reRun s fuel a pos ++ [pos]
  | RE.star a, pos => reRunStar (reRun s fuel a) fuel pos
  | RE.wb, pos =>
    let left := match pos with
      | 0 => false
      | p + 1 => (s.get? p).elim false isWordChar
    let right := (s.get? pos).elim false isWordChar
    if left != right then [pos] else []
  | RE.eol, pos => if pos == s.length then [pos] else []

/-- Leftmost match of `r` in `s` starting at or after `start`:
`(matchStart, matchEnd)`. -/
def reSearchFrom (s : List Char) (r : RE) (start : Nat) : Option (Nat × Nat) :=
  ((List.range (s.length + 1)).drop start).findSome? (fun p =>
    match reRun s (s.length + 1) r p with
    | [] => none
    | e :: _ => some (p, e))

/-- `re.test(s)` / truthiness of `s.match(re)`. -/
def reTest (s : List Char) (r : RE) : Bool := (reSearchFrom s r 0).isSome

/-- `s.match(re)[0]`: the text of the leftmost match. -/
def reMatchFirst (s : List Char) (r : RE) : Option (List Char) :=
  (reSearchFrom s r 0).map (fun m => (s.take m.2).drop m.1)

def reReplaceAllAux (s : List Char) (r : RE) (repl : List Char) :
    Nat → Nat → List Char
  | 0, i => s.drop i
  | fuel + 1, i =>
    match reSearchFrom s r i with
    | none => s.drop i
    | some (st, en) =>
      if en ≤ st then s.drop i
      else ((s.take st).drop i) ++ repl ++ reReplaceAllAux s r repl fuel en

/-- `s.replace(re-with-g-flag, repl)`: replace every match (all patterns
used are non-nullable, so matches always advance). -/
def reReplaceAll (s : List Char) (r : RE) (repl : List Char) : List Char :=
  reReplaceAllAux s r repl (s.length + 1) 0

/-- `s.replace(re, repl)` without the `g` flag: first match only. -/
def reReplaceFirst (s : List Char) (r : RE) (repl : List Char) : List Char :=
  match reSearchFrom s r 0 with
  | none => s
  | some (st, en) => s.take st ++ repl ++ s.drop en

def reSplitAux (s : List Char) (r : RE) : Nat → Nat → List (List Char)
  | 0, i => [s.drop i]
  | fuel + 1, i =>
    match reSearchFrom s r i with
    | none => [s.drop i]
    | some (st, en) =>
      if en ≤ st then [s.drop i]
      else ((s.take st).drop i) :: reSplitAux s r fuel en

/-- `s.split(re)`. -/
def reSplit (s : List Char) (r : RE) : List (List Char) :=
  reSplitAux s r (s.length + 1) 0

def listContains (s sub : List Char) : Bool :=
  (List.range (s.length + 1)).any (fun i => sub.isPrefixOf (s.drop i))

/-- `s.includes(sub)`. -/
def strContains (s sub : String) : Bool := listContains s.toList sub.toList

/-- `s.trim()` (on the ASCII whitespace the inputs use). -/
def trimJS (l : List Char) : List Char :=
  ((l.dropWhile isSpaceJS).reverse.dropWhile isSpaceJS).reverse

/-- `s.toLowerCase()` (ASCII). -/
def toLowerList (l : List Char) : List Char := l.map Char.toLower

/-- `s.split(sep)` for a one-character separator. -/
def splitOnChar (sep : Char) (l : List Char) : List (List Char) :=
  l.foldr (fun ch acc =>
    match acc with
    | [] => [[ch]]
    | cur :: rest => if ch == sep then [] :: cur :: rest else (ch :: cur) :: rest)
    [[]]

/-- `parts.join(sep)`. -/
def joinWith (sep : List Char) : List (List Char) → List Char
  | [] => []
  | [x] => x
  | x :: xs => x ++ sep ++ joinWith sep xs

end AttendFlow

namespace AttendFlow

/-! ### The cell parser's patterns (`src/lib/excelParser.ts`) -/

def reUpper : RE := RE.cls isUpperAZ

def reLower : RE := RE.cls isLowerAZ

def reDigit : RE := RE.cls isDigit09

def reSpace : RE := RE.cls isSpaceJS

/-- `/[A-Z]?\d+[A-Z]?-[A-Z]+\d+-[A-Z]+/`: the institutional room-code
shape used to validate a parenthesised room candidate. -/
def reRoomCore : RE :=
  RE.cat [RE.opt reUpper, RE.plus reDigit, RE.opt reUpper, RE.chr '-',
    RE.plus reUpper, RE.plus reDigit, RE.chr '-', RE.plus reUpper]

/-- `/\(([^)]+)\)/` and `/\([^)]+\)/g`: a non-empty parenthesised chunk. -/
def reParenGroup : RE :=
  RE.cat [RE.chr '(', RE.plus (RE.cls (fun c => c != ')')), RE.chr ')']

/-- `/\([^)]*\)/g`: any parenthesised chunk. -/
def reParenAny : RE :=
  RE.cat [RE.chr '(', RE.star (RE.cls (fun c => c != ')')), RE.chr ')']

/-- The four unparenthesised room patterns, in source order:
`/\b([A-Z]?\d+[A-Z]?-[A-Z]+\d+-[A-Z]+)\b/`, `/\b([A-Z]\d+[A-Z]?-[A-Z]+\d+)\b/`,
`/\b(\d{4}[A-Z]?)\b/`, `/\b([A-Z]+\d+[A-Z]?)\b/`. -/
def roomPatterns : List RE :=
  [RE.cat [RE.wb, RE.opt reUpper, RE.plus reDigit, RE.opt reUpper, RE.chr '-',
     RE.plus reUpper, RE.plus reDigit, RE.chr '-', RE.plus reUpper, RE.wb],
   RE.cat [RE.wb, reUpper, RE.plus reDigit, RE.opt reUpper, RE.chr '-',
     RE.plus reUpper, RE.plus reDigit, RE.wb],
   RE.cat [RE.wb, RE.repeatN 4 reDigit, RE.opt reUpper, RE.wb],
   RE.cat [RE.wb, RE.plus reUpper, RE.plus reDigit, RE.opt reUpper, RE.wb]]

/-- `/\b(?:Dr|Prof|Mr|Ms|Mrs)\.?\s+[A-Z][a-z]+(?:\s+[A-Z][a-z]+)*:?/g`. -/
def reHonorific : RE :=
  RE.cat [RE.wb,
    RE.alt (RE.str "Dr") (RE.alt (RE.str "Prof") (RE.alt (RE.str "Mr")
      (RE.alt (RE.str "Ms") (RE.str "Mrs")))),
    RE.opt (RE.chr '.'),
    RE.plus reSpace, reUpper, RE.plus reLower,
    RE.star (RE.cat [RE.plus reSpace, reUpper, RE.plus reLower]),
    RE.opt (RE.chr ':')]

/-- `/(?:23CSBTB\d{2}[A-Z]?|\d{2}[A-Z]{3,}\d{2}[A-Z]?\d?)/g`. -/
def reBatch : RE :=
  RE.alt
    (RE.cat [RE.str "23CSBTB", RE.repeatN 2 reDigit, RE.opt reUpper])
    (RE.cat [RE.repeatN 2 reDigit, RE.repeatN 3 reUpper, RE.star reUpper,
      RE.repeatN 2 reDigit, RE.opt reUpper, RE.opt reDigit])

/-- `/[:\-–—]+$/g`. -/
def reTrailDash : RE :=
  RE.cat [RE.plus (RE.cls (fun c =>
    c == ':' || c == '-' || c == '–' || c == '—')), RE.eol]

/-- `/\s+/g`. -/
def reSpaces : RE := RE.plus reSpace

/-- The `commonSurnames` denylist, in source order. -/
def commonSurnames : List String :=
  ["sujitha", "sudharani", "ramesh", "mishra", "nagalaxmi", "sammaiah",
   "rao", "sourav", "kumar", "shiva", "kotte", "teja", "tyagi", "iram",
   "venkatesh", "gurrapu", "reddy", "hazra", "Dr", "dr", "Mr", "Mrs", "Ms",
   "sandeep", "Bhanu"]

/-- The surname pattern built by the source:
`new RegExp('\\b(' + commonSurnames.join('|') + ')\\b', 'gi')`. -/
def reSurname : RE :=
  RE.cat [RE.wb,
    (commonSurnames.map RE.strCI).foldr RE.alt (RE.cls (fun _ => false)),
    RE.wb]

/-- `/\b[A-Z]\b/g`. -/
def reSingleCap : RE := RE.cat [RE.wb, reUpper, RE.wb]

/-- `/[.,;:()\s]+$/g`. -/
def reTrailPunct : RE :=
  RE.cat [RE.plus (RE.cls (fun c =>
    c == '.' || c == ',' || c == ';' || c == ':' || c == '(' || c == ')' ||
      isSpaceJS c)), RE.eol]

/-- `/[^a-zA-Z\s]/g`. -/
def reNonLetter : RE :=
  RE.cls (fun c => !(isUpperAZ c || isLowerAZ c || isSpaceJS c))

/-- `/[\n\r]+/` (line split). -/
def reNewlines : RE := RE.plus (RE.cls (fun c => c == '\n' || c == '\r'))

/-- `extractSubjectAndRoom(cellData)`, transcribed pass by pass:
first line / first comma segment; parenthesised room extraction
validated against `reRoomCore`, else the four fallback room patterns;
then honorific, batch-code, parenthetical, trailing-dash, surname and
single-letter stripping with whitespace collapsing; finally the
first-three-words fallback when the subject came out empty. -/
def extractSubjectAndRoom (cellData : String) : String × Option String :=
  if trimJS cellData.toList == [] then ("", none)
  else
    let cleanData₀ := trimJS cellData.toList
    let lines := reSplit cleanData₀ reNewlines
    let cleanData₁ :=
      if lines.length > 1 then trimJS (lines.headD []) else cleanData₀
    let parts := splitOnChar ',' cleanData₁
    let cleanData₂ :=
      if parts.length > 1 then trimJS (parts.headD []) else cleanData₁
    let step₁ : Option (List Char) × List Char :=
      match reMatchFirst cleanData₂ reParenGroup with
      | some m =>
        let potentialRoom := trimJS ((m.drop 1).dropLast)
        if reTest potentialRoom reRoomCore then
          (some potentialRoom, trimJS (reReplaceAll cleanData₂ reParenGroup []))
        else (none, cleanData₂)
      | none => (none, cleanData₂)
    let step₂ : Option (List Char) × List Char :=
      match step₁.1 with
      | some r => (some r, step₁.2)
      | none =>
        match roomPatterns.findSome? (fun p =>
            (reMatchFirst step₁.2 p).map (fun m => (p, m))) with
        | some pm =>
          (some pm.2, trimJS (reReplaceFirst step₁.2 pm.1 []))
        | none => (none, step₁.2)
    let room := step₂.1
    let cleanData := step₂.2
    let subject₁ := reReplaceAll cleanData reHonorific []
    let subject₂ := reReplaceAll subject₁ reBatch []
    let subject₃ := reReplaceAll subject₂ reParenAny []
    let subject₄ := trimJS (reReplaceAll
        (reReplaceAll subject₃ reTrailDash []) reSpaces [' '])
    let subject₅ := trimJS (reReplaceAll subject₄ reSurname [])
    let subject₆ := trimJS (reReplaceAll subject₅ reSingleCap [])
    let subject₇ := trimJS (reReplaceAll
        (reReplaceAll subject₆ reSpaces [' ']) reTrailPunct [])
    let subject :=
      if subject₇ == [] then
        let words := reSplit cleanData reSpaces
        reReplaceAll (joinWith [' '] (words.take 3)) reNonLetter []
      else subject₇
    (String.mk subject, room.map String.mk)

end AttendFlow

namespace AttendFlow

/-! ### `parseExcelTimetable` (grid-level model) -/

/-- One parsed timetable entry.  The source also assigns each entry a
fresh random id (`Date`/`Math.random` based); ids are not part of the
model — re-running the parser yields fresh ids anyway and no claim
concerns them. -/
structure ParsedTimetableEntry where
  day : String
  time : String
  subject : String
  room : Option String
deriving DecidableEq, Repr

/-- `ExcelParseResult`. -/
structure ExcelParseResult where
  success : Bool
  data : List ParsedTimetableEntry
  errors : List String
  warnings : List String
deriving DecidableEq, Repr

/-- The `dayNames` array of `parseExcelTimetable`. -/
def dayNames : List String :=
  ["monday", "tuesday", "wednesday", "thursday", "friday", "saturday", "sunday"]

/-- `day.charAt(0).toUpperCase() + day.slice(1)`. -/
def capitalizeFirst (s : String) : String :=
  match s.toList with
  | [] => ""
  | c :: cs => String.mk (c.toUpper :: cs)

/-- The header row: `rawData[1].map(h => String(h || '').trim())`. -/
def headersOf (rawData : List (List String)) : List String :=
  ((rawData.get? 1).getD []).map (fun h => String.mk (trimJS h.toList))

/-- The time column: the first header cell that is non-empty and
contains "time" or "period" (the `h === ''` disjunct of the source is
unreachable because `h` must be truthy first); column 0 when none
matches. -/
def timeColumnOf (headers : List String) : Nat :=
  match headers.findIdx? (fun h =>
      h != "" && (listContains (toLowerList h.toList) "time".toList ||
        listContains (toLowerList h.toList) "period".toList || h == "")) with
  | some i => i
  | none => 0

/-- The day columns: header cells other than the time column whose
lowercase text contains a weekday name or its 3-letter prefix; order as
encountered, capitalised day name paired with the column index. -/
def dayColumnsOf (rawData : List (List String)) : List (String × Nat) :=
  let headers := headersOf rawData
  let timeColumn := timeColumnOf headers
  headers.enum.filterMap (fun cell =>
    if cell.1 == timeColumn then none
    else
      let headerLower := toLowerList cell.2.toList
      match dayNames.find? (fun day =>
          listContains headerLower day.toList ||
            listContains headerLower (day.toList.take 3)) with
      | some matchedDay => some (capitalizeFirst matchedDay, cell.1)
      | none => none)

/-- The entries produced from the data rows (`rawData.slice(2)`): rows
with an empty time cell are skipped; per day column, cells that are
empty, contain "free"/"break" (case-insensitive) or equal "-" are
skipped; otherwise the cell goes through `extractSubjectAndRoom` and an
entry is emitted when the subject is non-empty. -/
def entriesOf (rawData : List (List String)) : List ParsedTimetableEntry :=
  let headers := headersOf rawData
  let timeColumn := timeColumnOf headers
  let dayColumns := dayColumnsOf rawData
  (rawData.drop 2).flatMap (fun row =>
    let timeValue := String.mk (trimJS ((row.get? timeColumn).getD "").toList)
    if timeValue == "" then []
    else
      dayColumns.filterMap (fun dayCol =>
        let cellData := String.mk (trimJS ((row.get? dayCol.2).getD "").toList)
        if cellData == "" || listContains (toLowerList cellData.toList) "free".toList ||
            listContains (toLowerList cellData.toList) "break".toList ||
            cellData == "-" then none
        else
          let sr := extractSubjectAndRoom cellData
          if sr.1 != "" then
            some { day := dayCol.1, time := timeValue, subject := sr.1, room := sr.2 }
          else none))

/-- `parseExcelTimetable`, from the decoded 2-D string grid onward (the
XLSX byte decoding and its surrounding try/catch are not modelled; every
computation the model performs is total).  Fails when the grid has fewer
than 3 rows, when no day column is found, or when no entry was
produced; otherwise succeeds with the entry list and the success
warnings. -/
def parseExcelTimetable (rawData : List (List String)) : ExcelParseResult :=
  if rawData.length < 3 then
    { success := false, data := []
      errors := ["Excel file must contain at least 3 rows (batch header, day header, and data)"]
      warnings := [] }
  else
    let headers := headersOf rawData
    let dayColumns := dayColumnsOf rawData
    if dayColumns.isEmpty then
      { success := false, data := []
        errors := ["No day columns found in headers: " ++
          String.mk (joinWith (", ".toList) (headers.map String.toList))]
        warnings := [] }
    else
      let timetableEntries := entriesOf rawData
      if timetableEntries.isEmpty then
        { success := false, data := []
          errors := ["No valid timetable entries found. Please check your Excel format."]
          warnings := [] }
      else
        let uniqueSubjects := (timetableEntries.map (fun e => e.subject)).dedup
        { success := true, data := timetableEntries, errors := []
          warnings :=
            ["Successfully parsed " ++ toString timetableEntries.length ++
              " timetable entries"] ++
            (if uniqueSubjects.length < 3 then
              ["Only found a few unique subjects. Please verify the data extraction."]
            else []) }

end AttendFlow

namespace AttendFlow

/-! ### Claim C4: the worked extraction example -/

/-- **C4.** For any batch row, running extraction on the grid whose
header row is `["Time","Monday","Tuesday"]` and whose single data row is
`["09:00","Data Science (3102B-BL3-FF) Dr. Smith","Free"]` produces
exactly one schedule entry — day "Monday", time "09:00", subject
"Data Science", room "3102B-BL3-FF" — and no entry for the Tuesday
cell. -/
theorem parseExcelTimetable_example (batchRow : List String) :
    (parseExcelTimetable [batchRow, ["Time", "Monday", "Tuesday"],
      ["09:00", "Data Science (3102B-BL3-FF) Dr. Smith", "Free"]]).success = true ∧
    (parseExcelTimetable [batchRow, ["Time", "Monday", "Tuesday"],
      ["09:00", "Data Science (3102B-BL3-FF) Dr. Smith", "Free"]]).data =
      [{ day := "Monday", time := "09:00", subject := "Data Science",
         room := some "3102B-BL3-FF" }] := by
  refine ⟨?_, ?_⟩
  · rfl
  · rfl

end AttendFlow

namespace AttendFlow

/-! ### Claim C8: failure cases of extraction (corrected) -/

/-- **C8, counterexample.** The claim attributes the error
"no valid entries" to every failure in which the produced entry list is
empty.  On the 2-row grid `[["x"], ["Time","Monday"]]` the header cells
do contain a day column and the produced entry list is empty, yet the
error is the at-least-3-rows message, not the no-valid-entries one:
the row-count check precedes both structural checks the claim names. -/
theorem parseExcelTimetable_short_grid_error :
    (parseExcelTimetable [["x"], ["Time", "Monday"]]).success = false ∧
    dayColumnsOf [["x"], ["Time", "Monday"]] ≠ [] ∧
    entriesOf [["x"], ["Time", "Monday"]] = [] ∧
    (parseExcelTimetable [["x"], ["Time", "Monday"]]).errors ≠
      ["No valid timetable entries found. Please check your Excel format."] := by
  refine ⟨rfl, ?_, rfl, ?_⟩
  · decide
  · decide

/-- **C8, amended.** Extraction fails (`success = false`) exactly when
zero day columns are found among the header cells or the produced entry
list is empty (a grid with fewer than 3 rows always falls under the
second case, since there are no data rows); when the grid has at least
3 rows and a day column exists but the entry list is empty, the error
is "No valid timetable entries found. Please check your Excel format.";
otherwise extraction succeeds with exactly the non-empty produced entry
list. -/
theorem parseExcelTimetable_failure_characterisation (rawData : List (List String)) :
    ((parseExcelTimetable rawData).success = false ↔
      (dayColumnsOf rawData = [] ∨ entriesOf rawData = [])) ∧
    ((parseExcelTimetable rawData).success = true →
      (parseExcelTimetable rawData).data = entriesOf rawData ∧
        entriesOf rawData ≠ []) ∧
    (3 ≤ rawData.length → dayColumnsOf rawData ≠ [] → entriesOf rawData = [] →
      (parseExcelTimetable rawData).errors =
        ["No valid timetable entries found. Please check your Excel format."]) := by
  by_cases h3 : rawData.length < 3
  · have hdropnil : rawData.drop 2 = [] := List.drop_eq_nil_of_le (by omega)
    have hent : entriesOf rawData = [] := by
      simp [entriesOf, hdropnil]
    have hres : (parseExcelTimetable rawData).success = false := by
      simp [parseExcelTimetable, h3]
    refine ⟨?_, ?_, ?_⟩
    · simp [hres, hent]
    · intro hsucc
      rw [hres] at hsucc
      cases hsucc
    · intro hge
      omega
  · by_cases hday : dayColumnsOf rawData = []
    · have hres : parseExcelTimetable rawData =
          { success := false, data := []
            errors := ["No day columns found in headers: " ++
              String.mk (joinWith (", ".toList) ((headersOf rawData).map String.toList))]
            warnings := [] } := by
        rw [parseExcelTimetable]
        simp [h3, hday]
      refine ⟨?_, ?_, ?_⟩
      · simp [hres, hday]
      · intro hsucc
        rw [hres] at hsucc
        cases hsucc
      · intro _ hday'
        exact absurd hday hday'
    · by_cases hent : entriesOf rawData = []
      · have hres : parseExcelTimetable rawData =
            { success := false, data := []
              errors := ["No valid timetable entries found. Please check your Excel format."]
              warnings := [] } := by
          rw [parseExcelTimetable]
          simp [h3, hday, hent]
        refine ⟨?_, ?_, ?_⟩
        · simp [hres, hent]
        · intro hsucc
          rw [hres] at hsucc
          cases hsucc
        · intro _ _ _
          rw [hres]
      · have hres : (parseExcelTimetable rawData).success = true ∧
            (parseExcelTimetable rawData).data = entriesOf rawData ∧
            (parseExcelTimetable rawData).errors = [] := by
          rw [parseExcelTimetable]
          simp [h3, hday, hent]
        refine ⟨?_, ?_, ?_⟩
        · simp [hres.1, hday, hent]
        · intro _
          exact ⟨hres.2.1, hent⟩
        · intro _ _ hent'
          exact absurd hent' hent

/-- Witness for C8 at a concrete input: a 3-row grid with a Monday
column whose only cell is "Free" produces no entries, and the error is
the no-valid-entries message. -/
theorem parseExcelTimetable_failure_characterisation_witness :
    (parseExcelTimetable [["a"], ["Time", "Monday"], ["09:00", "Free"]]).errors =
      ["No valid timetable entries found. Please check your Excel format."] :=
  (parseExcelTimetable_failure_characterisation
    [["a"], ["Time", "Monday"], ["09:00", "Free"]]).2.2
    (by decide) (by decide) (by decide)

end AttendFlow
